import Mathlib

/-!
Verification development for the video batch-publishing repository
(`upload.js` and `update_descriptions.js`).

The two scripts are embedded shallowly: a spreadsheet ("Dataset") is a list
of rows, each row a list of cell strings, row 0 being the header row
(matching `xlsx.utils.sheet_to_json(ws, { header: 1 })`).  JavaScript
strings become Lean `String`; a possibly-`undefined` value becomes
`Option String`; code that can throw is embedded in `Except String`, with
the surrounding `try/catch` applied explicitly.  External I/O (file load,
file write, the YouTube API) is passed in as explicit parameters so each
code path of the scripts is a total function of its inputs.
-/

/-- A worksheet decoded as array-of-arrays (`sheet_to_json` with `header: 1`):
row 0 is the header row, the rest are data rows. -/
abbrev Sheet : Type := List (List String)

/-- ASCII lower-casing of one character (the fragment of JavaScript
`toLowerCase` relevant to the header and marker literals used here). -/
def lowerChar (c : Char) : Char :=
  if 'A' ≤ c && c ≤ 'Z' then Char.ofNat (c.toNat + 32) else c

/-- JavaScript `s.toLowerCase()` (ASCII fragment). -/
def jsToLower (s : String) : String := String.mk (s.data.map lowerChar)

/-- JavaScript `s.trim()`: strip leading and trailing whitespace. -/
def jsTrim (s : String) : String :=
  String.mk (((s.data.dropWhile Char.isWhitespace).reverse.dropWhile Char.isWhitespace).reverse)

/-- JavaScript truthiness of a string-or-undefined value:
`undefined` and `""` are falsy, every other string is truthy. -/
def truthy : Option String → Bool
  | none => false
  | some s => !(s == "")

/-- The marker test shared by both pipelines
(`row.Uploaded && row.Uploaded.toString().toLowerCase() === 'yes'` in
`upload.js`, and the identical check on `row['updated_description']` in
`update_descriptions.js`).  Note: the value is lower-cased but NOT trimmed. -/
def truthyYes (m : Option String) : Bool :=
  truthy m && (jsToLower (m.getD "") == "yes")

/-- JavaScript `Array.prototype.findIndex` (also `indexOf` via an equality
predicate): index of the first element satisfying `p`, `none` for `-1`. -/
def findIndex (p : String → Bool) : List String → Option Nat
  | [] => none
  | h :: t => if p h then some 0 else (findIndex p t).map (fun i => i + 1)

/-- Index of the last occurrence of `key`, modelling the effect of building
a JavaScript object by `obj[header] = row[index]` over all headers: a later
duplicate header overwrites an earlier one. -/
def lastIdxOf (key : String) : List String → Option Nat
  | [] => none
  | h :: t =>
    match lastIdxOf key t with
    | some i => some (i + 1)
    | none => if h == key then some 0 else none

/-- `sub` occurs as a contiguous substring (JavaScript `String.includes`). -/
def listIncludes (pat : List Char) : List Char → Bool
  | [] => pat.isEmpty
  | c :: rest => pat.isPrefixOf (c :: rest) || listIncludes pat rest

/-- JavaScript `s.includes(sub)`. -/
def strIncludes (s sub : String) : Bool := listIncludes sub.data s.data

/-- Object-view field access for `upload.js`'s
`sheet_to_json(ws, { defval: "" })`: the first header equal to `key` names
the column (the xlsx library renames later duplicate headers), and every
cell in range is materialised, missing ones as `""`. -/
def objGetFirst (headers cells : List String) (key : String) : Option String :=
  (findIndex (fun h => h == key) headers).map (fun i => cells.getD i "")

/-- Object-view field access for `update_descriptions.js`'s hand-rolled
`headers.forEach((header, index) => { obj[header] = row[index]; })`:
the last duplicate header wins, and a cell beyond the row's length is
`undefined`. -/
def objGetLast (headers cells : List String) (key : String) : Option String :=
  (lastIdxOf key headers).bind (fun i => cells[i]?)

/-- Pad a row with `""` cells until column `c` exists, then write `v` there
(`while (row.length <= col) row.push(""); row[col] = v;`). -/
def setCell (row : List String) (c : Nat) (v : String) : List String :=
  (row ++ List.replicate (c + 1 - row.length) "").set c v

/-- Column Resolver (§4.4): first index where `pred` holds; if absent,
append the canonical header and return the new last index. -/
def resolveCol (pred : String → Bool) (canon : String) (headers : List String) :
    Nat × List String :=
  match findIndex pred headers with
  | some i => (i, headers)
  | none => (headers.length, headers ++ [canon])

/-- `upload.js` lines 374-380: `headers.findIndex(h =>
String(h).trim().toLowerCase() === "uploaded")`, appending `"Uploaded"`
when absent. -/
def resolveUpload : List String → Nat × List String :=
  resolveCol (fun h => jsToLower (jsTrim h) == "uploaded") "Uploaded"

/-- `update_descriptions.js` lines 165-170:
`headers.indexOf('updated_description')` (exact match), appending
`'updated_description'` when absent. -/
def resolveUpdate : List String → Nat × List String :=
  resolveCol (fun h => h == "updated_description") "updated_description"

/-- What a Progress Recorder call does to the durable store. -/
inductive RecOutcome where
  | noWrite
  | wrote (newData : List (List String))
deriving DecidableEq, Repr

/-- `upload.js` line 392: the title cell of a data row,
`row[titleCol] !== undefined && row[titleCol] !== null ?
String(row[titleCol]).trim() : ""`. -/
def cellTitle (tc : Nat) (row : List String) : String :=
  match row[tc]? with
  | some s => jsTrim s
  | none => ""

/-- `upload.js` lines 388-402: scan data rows, update the first whose title
cell matches `target`, and stop (`break`).  `none` when no row matches. -/
def markFirst (tc c : Nat) (target : String) : List (List String) → Option (List (List String))
  | [] => none
  | row :: rest =>
    if cellTitle tc row == target then some (setCell row c "Yes" :: rest)
    else (markFirst tc c target rest).map (fun l => row :: l)

/-- The body of `updateExcelStatus` (`upload.js` lines 343-417) inside its
`try` block, as an `Except`: thrown errors are `Except.error`.  `row?` is
`updatedRow` (`none` = null object, `some none` = missing `"Title"` field);
`load` is the result of `xlsx.readFile`; `writeOk` tells whether
`xlsx.writeFile` succeeds. -/
def recUploadBody (row? : Option (Option String)) (load : Except String Sheet)
    (writeOk : Bool) : Except String RecOutcome :=
  match row? with
  | none => .ok .noWrite
  | some t? =>
    if !truthy t? then .ok .noWrite
    else
      match load with
      | .error e => .error e
      | .ok sheetData =>
        match sheetData with
        | [] => .error "Sheet is empty or unreadable"
        | headers :: rows =>
          match findIndex (fun h => jsToLower (jsTrim h) == "title") headers with
          | none => .error "Could not find a Title column in the sheet headers"
          | some tc =>
            let rc := resolveUpload headers
            match markFirst tc rc.1 (jsTrim (t?.getD "")) rows with
            | none => .ok .noWrite
            | some newRows =>
              if writeOk then .ok (.wrote (rc.2 :: newRows))
              else .error "write failed"

/-- `updateExcelStatus` with its surrounding `catch(err){ console.log(err); }`:
every thrown error is swallowed and no write happens. -/
def updateExcelStatusEff (row? : Option (Option String)) (load : Except String Sheet)
    (writeOk : Bool) : RecOutcome :=
  match recUploadBody row? load writeOk with
  | .ok r => r
  | .error _ => .noWrite

/-- `updateExcelStatus` on a successfully loaded sheet with a working
file system. -/
def updateExcelStatus (row? : Option (Option String)) (sheetData : Sheet) : RecOutcome :=
  updateExcelStatusEff row? (.ok sheetData) true

/-- The body of `markVideoAsUpdated` (`update_descriptions.js` lines
148-196) inside its `try`.  `fileOk` is `fs.existsSync(LOCAL_XLSX_PATH)`
(when false the function returns without writing); an out-of-range row
index is logged but the (possibly header-extended) sheet is still written. -/
def recUpdateBody (index : Nat) (fileOk : Bool) (load : Except String Sheet)
    (writeOk : Bool) : Except String RecOutcome :=
  if !fileOk then .ok .noWrite
  else
    match load with
    | .error e => .error e
    | .ok data =>
      match data with
      | [] => .error "cannot read headers of an empty sheet"
      | headers :: rows =>
        let rc := resolveUpdate headers
        let rows' :=
          if index < rows.length then rows.set index (setCell (rows.getD index []) rc.1 "yes")
          else rows
        if writeOk then .ok (.wrote (rc.2 :: rows'))
        else .error "write failed"

/-- `markVideoAsUpdated` with its surrounding `catch`. -/
def markVideoAsUpdatedEff (index : Nat) (fileOk : Bool) (load : Except String Sheet)
    (writeOk : Bool) : RecOutcome :=
  match recUpdateBody index fileOk load writeOk with
  | .ok r => r
  | .error _ => .noWrite

/-- `markVideoAsUpdated` on a successfully loaded local sheet with a
working file system. -/
def markVideoAsUpdated (index : Nat) (data : Sheet) : RecOutcome :=
  markVideoAsUpdatedEff index true (.ok data) true

/-- One row of `upload.js`'s object view
(`sheet_to_json(worksheet, { defval: "" })`), restricted to the three
fields `main` reads: `row.Uploaded`, `row.BlobUrl`, `row['Title']`. -/
structure ORow where
  uploaded : Option String
  blobUrl : Option String
  title : Option String
deriving DecidableEq, Repr

/-- Decode a sheet into `upload.js`'s object rows. -/
def objRowsUpload (sheet : Sheet) : List ORow :=
  match sheet with
  | [] => []
  | headers :: rows =>
    rows.map (fun cells =>
      ⟨objGetFirst headers cells "Uploaded",
       objGetFirst headers cells "BlobUrl",
       objGetFirst headers cells "Title"⟩)

/-- The Row Filter of the publish pipeline (`upload.js` lines 434-436):
`videoMetadata.filter(row => !(row.Uploaded &&
row.Uploaded.toString().toLowerCase() === 'yes'))`. -/
def filterUploaded (rows : List ORow) : List ORow :=
  rows.filter (fun r => !truthyYes r.uploaded)

/-- One row of `update_descriptions.js`'s hand-built object view,
restricted to the fields `main` reads. -/
structure URow where
  updatedDescription : Option String
  youtubeUrl : Option String
  description : Option String
deriving DecidableEq, Repr

/-- Decode a sheet into `update_descriptions.js`'s object rows
(lines 112-127 / 286-299), including the trailing-cell fallback for
`'YouTube URL'`. -/
def objRowsUpdate (sheet : Sheet) : List URow :=
  match sheet with
  | [] => []
  | headers :: rows =>
    rows.map (fun cells =>
      let url0 := objGetLast headers cells "YouTube URL"
      let url :=
        if !truthy url0 && decide (headers.length < cells.length) then
          match cells.getLast? with
          | some lastCell =>
            if strIncludes lastCell "youtube.com" then some lastCell else url0
          | none => url0
        else url0
      ⟨objGetLast headers cells "updated_description", url,
       objGetLast headers cells "YouTube Description"⟩)

/-- The in-loop Row Filter of the metadata-update pipeline
(`update_descriptions.js` lines 317-320) applied to a decoded sheet:
rows whose `updated_description` is truthy and lower-cases to `"yes"`
are skipped. -/
def filterUpdated (rows : List URow) : List URow :=
  rows.filter (fun r => !truthyYes r.updatedDescription)

/-- `extractVideoId`'s regular expression `(?:v=|\/)([0-9A-Za-z_-]{11}).*`:
character class of the captured group. -/
def isIdChar (c : Char) : Bool := c.isAlphanum || c == '_' || c == '-'

/-- Try to match the regex at the current position: `"v="` or `"/"`,
then exactly 11 id characters. -/
def matchIdAt (cs : List Char) : Option String :=
  let tryTail : List Char → Option String := fun rest =>
    let ident := rest.take 11
    if ident.length == 11 && ident.all isIdChar then some (String.mk ident) else none
  match cs with
  | 'v' :: '=' :: rest => tryTail rest
  | '/' :: rest => tryTail rest
  | _ => none

/-- Scan left to right for the first position where the regex matches. -/
def scanId : List Char → Option String
  | [] => none
  | c :: rest =>
    match matchIdAt (c :: rest) with
    | some s => some s
    | none => scanId rest

/-- `extractVideoId` (`update_descriptions.js` lines 139-143); a falsy
(`none` or empty) url yields `null`. -/
def extractVideoId (url : Option String) : Option String :=
  if !truthy url then none
  else scanId (url.getD "").data

/-- Result of `updateVideoDescription` as observed by the caller. -/
inductive UpdResult where
  | dryRun
  | notFound
  | upToDate
  | updated (desc : String)
deriving DecidableEq, Repr

/-- JavaScript `s.substring(0, n)`. -/
def jsSubstring (s : String) (n : Nat) : String := String.mk (s.data.take n)

/-- `updateVideoDescription` (`update_descriptions.js` lines 210-265) on
its happy API path: `auth` is whether credentials exist (null auth is the
dry run), `current` is the description the `videos.list` call returns
(`none` = no such video). -/
def updateVideoDescription (auth : Bool) (current : Option String)
    (newDescription : String) : UpdResult :=
  if !auth then .dryRun
  else
    let newDescription' :=
      if 4900 < newDescription.length then jsSubstring newDescription 4900
      else newDescription
    match current with
    | none => .notFound
    | some cur =>
      if cur == newDescription' then .upToDate else .updated newDescription'

/-- Result of one row's external action in the publish pipeline:
the download step and the upload step can each reject with a message. -/
inductive StageResult where
  | success
  | downloadFail (msg : String)
  | uploadFail (msg : String)
deriving DecidableEq, Repr

/-- The quota-exhaustion substring tested at `upload.js` line 468. -/
def quotaMsg : String := "exceeded the number of videos"

/-- Replace the durable sheet by the recorder's output when it wrote. -/
def applyWrite (store : Sheet) : RecOutcome → Sheet
  | .noWrite => store
  | .wrote d => d

/-- One recorder call of the publish loop: `updateExcelStatus` re-reads the
durable file (the current `store`) and rewrites it when it succeeds;
`writeOk` injects a failing `xlsx.writeFile`. -/
def stepStore (writeOk : Bool) (title? : Option String) (store : Sheet) : Sheet :=
  applyWrite store (updateExcelStatusEff (some title?) (.ok store) writeOk)

/-- The `for (const videoData of filteredVideos)` loop of `upload.js`
`main` (lines 437-489): skip rows with falsy url/title; on upload success
record progress; on an upload error whose message contains the quota
substring `break`; on any other failure continue. -/
def uploadLoop (act : ORow → StageResult) (writeOk : Bool) :
    List ORow → Sheet → Sheet
  | [], store => store
  | v :: rest, store =>
    if truthy v.blobUrl && truthy v.title then
      match act v with
      | .success => uploadLoop act writeOk rest (stepStore writeOk v.title store)
      | .downloadFail _ => uploadLoop act writeOk rest store
      | .uploadFail msg =>
        if strIncludes msg quotaMsg then store
        else uploadLoop act writeOk rest store
    else uploadLoop act writeOk rest store

/-- `upload.js` `main` (lines 429-496): on a load (or parse) failure the
outer catch runs `process.exit(1)`; otherwise filter once, run the loop,
and finish normally.  Result: (exit status, final durable sheet). -/
def uploadMain (store : Sheet) (loadOk : Bool) (act : ORow → StageResult)
    (writeOk : Bool) : Nat × Sheet :=
  if !loadOk then (1, store)
  else (0, uploadLoop act writeOk (filterUploaded (objRowsUpload store)) store)

/-- The `for (let i = 0; ...)` loop of `update_descriptions.js` `main`
(lines 313-344): the index `i` advances on every row, skips included;
`act` is `updateVideoDescription`'s success boolean; a successful action
triggers the positional recorder for index `i`. -/
def updateLoop (act : String → String → Bool) (writeOk : Bool) :
    List URow → Nat → Sheet → Sheet
  | [], _, store => store
  | r :: rest, i, store =>
    if truthyYes r.updatedDescription then updateLoop act writeOk rest (i + 1) store
    else if !truthy r.youtubeUrl then updateLoop act writeOk rest (i + 1) store
    else
      match extractVideoId r.youtubeUrl with
      | none => updateLoop act writeOk rest (i + 1) store
      | some vid =>
        if !truthy r.description then updateLoop act writeOk rest (i + 1) store
        else if act vid (r.description.getD "") then
          updateLoop act writeOk rest (i + 1)
            (applyWrite store (markVideoAsUpdatedEff i true (.ok store) writeOk))
        else updateLoop act writeOk rest (i + 1) store

/-- The effect of one non-breaking iteration of the publish loop on the
durable store: skipped rows and non-quota failures leave it alone, a
successful upload triggers the recorder. -/
def stepRowU (act : ORow → StageResult) (writeOk : Bool) (store : Sheet) (v : ORow) : Sheet :=
  if truthy v.blobUrl && truthy v.title then
    match act v with
    | .success => stepStore writeOk v.title store
    | _ => store
  else store

/-- Whether processing row `v` makes the publish loop `break`: the row is
acted on and the upload fails with a message containing the quota
substring. -/
def isQuotaBreak (act : ORow → StageResult) (v : ORow) : Bool :=
  (truthy v.blobUrl && truthy v.title) &&
    match act v with
    | .uploadFail m => strIncludes m quotaMsg
    | _ => false

/-- `update_descriptions.js` `main` (lines 270-351): a load failure
propagates to the top-level `catch`, which only logs (`console.error`)
— the process then terminates with exit status 0, there is no
`process.exit(1)` in this pipeline. -/
def updateMain (store : Sheet) (loadOk : Bool) (act : String → String → Bool)
    (writeOk : Bool) : Nat × Sheet :=
  if !loadOk then (0, store)
  else (0, updateLoop act writeOk (objRowsUpdate store) 0 store)

-- A few sanity examples.
example : truthyYes (some "Yes") = true := by decide
example : truthyYes (some " yes") = false := by decide
example : truthyYes none = false := by decide
example : strIncludes "quota exceeded the number of videos today" "exceeded the number of videos" = true := by
  decide
example : extractVideoId (some "https://www.youtube.com/watch?v=dQw4w9WgXcQ") = some "dQw4w9WgXcQ" := by
  decide
example : extractVideoId (some "") = none := by decide

/-! ## Helper lemmas about list indexing and the cell writer -/

theorem getD_append_len {α : Type} (pre : List α) (R : α) (post : List α) (d : α) :
    (pre ++ R :: post).getD pre.length d = R := by
  induction pre with
  | nil => rfl
  | cons a t ih => simpa using ih

theorem set_append_len {α : Type} (pre : List α) (R X : α) (post : List α) :
    (pre ++ R :: post).set pre.length X = pre ++ X :: post := by
  induction pre with
  | nil => rfl
  | cons a t ih => simp [ih]

theorem getElem?_set_self' {α : Type} (l : List α) (i : Nat) (v : α) (h : i < l.length) :
    (l.set i v)[i]? = some v := by
  induction l generalizing i with
  | nil => simp at h
  | cons a t ih =>
    cases i with
    | zero => simp
    | succ n => simpa using ih n (by simpa using h)

theorem getD_set_self {α : Type} (l : List α) (i : Nat) (v d : α) (h : i < l.length) :
    (l.set i v).getD i d = v := by
  induction l generalizing i with
  | nil => simp at h
  | cons a t ih =>
    cases i with
    | zero => rfl
    | succ n => simpa using ih n (by simpa using h)

theorem lt_setCell_length (row : List String) (c : Nat) (v : String) :
    c < (setCell row c v).length := by
  simp only [setCell, List.length_set, List.length_append, List.length_replicate]
  omega

theorem setCell_getD (row : List String) (c : Nat) (v : String) :
    (setCell row c v).getD c "" = v := by
  apply getD_set_self
  simp only [List.length_append, List.length_replicate]
  omega

theorem setCell_getElem? (row : List String) (c : Nat) (v : String) :
    (setCell row c v)[c]? = some v := by
  apply getElem?_set_self'
  simp only [List.length_append, List.length_replicate]
  omega

/-! ## Helper lemmas about `findIndex` and the Column Resolver -/

theorem findIndex_append_of_none (p : String → Bool) (l : List String) (c : String)
    (h : findIndex p l = none) :
    findIndex p (l ++ [c]) = if p c then some l.length else none := by
  induction l with
  | nil => rfl
  | cons a t ih =>
    simp only [findIndex] at h ⊢
    rcases hpa : p a with _ | _
    · simp only [hpa, Bool.false_eq_true, if_false] at h ⊢
      rcases ht : findIndex p t with _ | i
      · rw [List.append_eq, ih ht]
        cases hpc : p c <;> simp [hpc, List.length_cons]
      · simp [ht] at h
    · simp [hpa] at h

theorem resolveCol_found (pred : String → Bool) (canon : String) (hs : List String)
    (i : Nat) (h : findIndex pred hs = some i) :
    resolveCol pred canon hs = (i, hs) := by
  simp [resolveCol, h]

theorem resolveCol_absent (pred : String → Bool) (canon : String) (hs : List String)
    (h : findIndex pred hs = none) :
    resolveCol pred canon hs = (hs.length, hs ++ [canon]) := by
  simp [resolveCol, h]

theorem getElem?_append_left' {α : Type} (l₁ l₂ : List α) (j : Nat) (h : j < l₁.length) :
    (l₁ ++ l₂)[j]? = l₁[j]? := by
  induction l₁ generalizing j with
  | nil => simp at h
  | cons a t ih =>
    cases j with
    | zero => simp
    | succ n => simpa using ih n (by simpa using h)

theorem resolveCol_preserves (pred : String → Bool) (canon : String) (hs : List String)
    (j : Nat) (x : String) (h : hs[j]? = some x) :
    ((resolveCol pred canon hs).2)[j]? = some x := by
  unfold resolveCol
  rcases hf : findIndex pred hs with _ | i
  · simp only
    rw [getElem?_append_left' hs [canon] j]
    · exact h
    · exact (List.getElem?_eq_some_iff.mp h).1
  · simpa using h

theorem resolveCol_idem (pred : String → Bool) (canon : String) (hs : List String)
    (hc : pred canon = true) :
    resolveCol pred canon (resolveCol pred canon hs).2 = resolveCol pred canon hs := by
  unfold resolveCol
  rcases hf : findIndex pred hs with _ | i
  · simp only
    rw [findIndex_append_of_none pred hs canon hf, hc]
    simp
  · simp [hf]

/-! ## Helper lemmas about `markFirst` and `updateExcelStatus` -/

theorem markFirst_none (tc c : Nat) (target : String) (rows : List (List String))
    (h : ∀ r ∈ rows, cellTitle tc r ≠ target) :
    markFirst tc c target rows = none := by
  induction rows with
  | nil => rfl
  | cons row rest ih =>
    simp only [markFirst]
    have hrow : (cellTitle tc row == target) = false := by
      simpa using h row (List.mem_cons_self row rest)
    rw [hrow]
    simp only [Bool.false_eq_true, if_false]
    rw [ih (fun r hr => h r (List.mem_cons_of_mem row hr))]
    rfl

theorem markFirst_first (tc c : Nat) (target : String) (pre : List (List String))
    (R : List String) (post : List (List String))
    (hpre : ∀ r ∈ pre, cellTitle tc r ≠ target) (hR : cellTitle tc R = target) :
    markFirst tc c target (pre ++ R :: post) = some (pre ++ setCell R c "Yes" :: post) := by
  induction pre with
  | nil =>
    simp only [List.nil_append, markFirst]
    rw [show (cellTitle tc R == target) = true by simpa using hR]
    simp
  | cons row rest ih =>
    simp only [List.cons_append, markFirst]
    have hrow : (cellTitle tc row == target) = false := by
      simpa using hpre row (List.mem_cons_self row rest)
    rw [hrow]
    simp only [Bool.false_eq_true, if_false]
    rw [List.append_eq, ih (fun r hr => hpre r (List.mem_cons_of_mem row hr))]
    rfl

theorem uploadLoop_append (act : ORow → StageResult) (writeOk : Bool)
    (pre rest : List ORow) (store : Sheet)
    (h : ∀ r ∈ pre, isQuotaBreak act r = false) :
    uploadLoop act writeOk (pre ++ rest) store =
      uploadLoop act writeOk rest (List.foldl (stepRowU act writeOk) store pre) := by
  induction pre generalizing store with
  | nil => rfl
  | cons v t ih =>
    have hv : isQuotaBreak act v = false := h v (List.mem_cons_self v t)
    have hrec : ∀ st, uploadLoop act writeOk (t ++ rest) st =
        uploadLoop act writeOk rest (List.foldl (stepRowU act writeOk) st t) :=
      fun st => ih st (fun r hr => h r (List.mem_cons_of_mem v hr))
    simp only [List.cons_append, List.foldl_cons]
    simp only [uploadLoop, stepRowU]
    rcases hvt : (truthy v.blobUrl && truthy v.title) with _ | _
    · simp only [Bool.false_eq_true, if_false]
      exact hrec store
    · simp only [if_true]
      rcases hact : act v with _ | m | m
      · exact hrec _
      · exact hrec store
      · have hm : strIncludes m quotaMsg = false := by
          simpa [isQuotaBreak, hvt, hact] using hv
        dsimp only
        rw [hm]
        simp only [Bool.false_eq_true, if_false]
        exact hrec store

theorem updateExcelStatus_run (t : String) (ht : t ≠ "") (headers : List String)
    (rows : List (List String)) (tc : Nat)
    (hfind : findIndex (fun h => jsToLower (jsTrim h) == "title") headers = some tc) :
    updateExcelStatus (some (some t)) (headers :: rows) =
      match markFirst tc (resolveUpload headers).1 (jsTrim t) rows with
      | none => .noWrite
      | some newRows => .wrote ((resolveUpload headers).2 :: newRows) := by
  have htr : truthy (some t) = true := by
    simp [truthy, ht]
  simp only [updateExcelStatus, updateExcelStatusEff, recUploadBody, htr, Bool.not_true,
    Bool.false_eq_true, if_false, hfind, Option.getD_some]
  rcases markFirst tc (resolveUpload headers).1 (jsTrim t) rows with _ | newRows <;> rfl

theorem updateExcelStatus_noMatch (t : String) (ht : t ≠ "") (headers : List String)
    (rows : List (List String)) (tc : Nat)
    (hfind : findIndex (fun h => jsToLower (jsTrim h) == "title") headers = some tc)
    (hnone : ∀ r ∈ rows, cellTitle tc r ≠ jsTrim t) :
    updateExcelStatus (some (some t)) (headers :: rows) = .noWrite := by
  rw [updateExcelStatus_run t ht headers rows tc hfind,
    markFirst_none tc (resolveUpload headers).1 (jsTrim t) rows hnone]

theorem updateExcelStatus_match (t : String) (ht : t ≠ "") (headers : List String)
    (tc : Nat) (pre post : List (List String)) (R : List String)
    (hfind : findIndex (fun h => jsToLower (jsTrim h) == "title") headers = some tc)
    (hpre : ∀ r ∈ pre, cellTitle tc r ≠ jsTrim t)
    (hR : cellTitle tc R = jsTrim t) :
    updateExcelStatus (some (some t)) (headers :: (pre ++ R :: post)) =
      .wrote ((resolveUpload headers).2 ::
        (pre ++ setCell R (resolveUpload headers).1 "Yes" :: post)) := by
  rw [updateExcelStatus_run t ht headers (pre ++ R :: post) tc hfind,
    markFirst_first tc (resolveUpload headers).1 (jsTrim t) pre R post hpre hR]

theorem markVideoAsUpdated_at (headers : List String) (pre : List (List String))
    (R : List String) (post : List (List String)) :
    markVideoAsUpdated pre.length (headers :: (pre ++ R :: post)) =
      .wrote ((resolveUpdate headers).2 ::
        (pre ++ setCell R (resolveUpdate headers).1 "yes" :: post)) := by
  have hlt : pre.length < (pre ++ R :: post).length := by
    simp only [List.length_append, List.length_cons]
    omega
  simp only [markVideoAsUpdated, markVideoAsUpdatedEff, recUpdateBody, Bool.not_true,
    Bool.false_eq_true, if_false, hlt, if_true, getD_append_len, set_append_len]

/-! ## Claim theorems -/

/-- C1, counterexample: the claim demands case-insensitive AND TRIMMED
normalization of the marker, but the filter in both scripts only
lower-cases (`row.Uploaded.toString().toLowerCase() === 'yes'`), so a row
whose marker is `" yes"` — which trims and lower-cases to `"yes"` and
should therefore be excluded, and should make an all-yes dataset filter
to the empty sequence — is kept by the code. -/
theorem C1_row_filter_cex :
    filterUploaded [⟨some " yes", some "u", some "t"⟩] =
      [⟨some " yes", some "u", some "t"⟩] ∧
    (jsToLower (jsTrim " yes") == "yes") = true := by
  decide

/-- C1, amended: the Row Filter returns exactly the sub-sequence of rows
whose progress marker, after case-insensitive normalization WITHOUT
trimming, is not "yes"; relative order is preserved (the result is a
sublist), the input is unmodified (the filter is a pure function), a
missing/undefined marker is always kept, and on a dataset where every
row's marker is "yes" in any letter case with no surrounding whitespace
the filter returns the empty sequence. -/
theorem C1_row_filter (rows : List ORow) :
    (filterUploaded rows).Sublist rows ∧
    (∀ r : ORow, r ∈ filterUploaded rows ↔ r ∈ rows ∧ truthyYes r.uploaded = false) ∧
    (∀ r : ORow, r ∈ rows → r.uploaded = none → r ∈ filterUploaded rows) ∧
    ((∀ r ∈ rows, ∃ s, r.uploaded = some s ∧ jsToLower s = "yes") →
      filterUploaded rows = []) := by
  refine ⟨List.filter_sublist rows, ?_, ?_, ?_⟩
  · intro r
    simp [filterUploaded, List.mem_filter]
  · intro r hr hnone
    simp only [filterUploaded, List.mem_filter]
    exact ⟨hr, by simp [truthyYes, hnone, truthy]⟩
  · intro hall
    apply List.filter_eq_nil_iff.mpr
    intro r hr
    rcases hall r hr with ⟨s, hs, hlow⟩
    have hsne : s ≠ "" := by
      intro he
      rw [he] at hlow
      exact absurd hlow (by decide)
    simp [truthyYes, hs, truthy, hsne, hlow]

/-- C1 witness: a dataset whose only row is marked "YES" (upper case, no
whitespace) filters to the empty sequence. -/
theorem C1_row_filter_witness :
    filterUploaded [⟨some "YES", none, some "t"⟩] = [] := by
  apply (C1_row_filter [⟨some "YES", none, some "t"⟩]).2.2.2
  intro r hr
  rw [List.mem_singleton] at hr
  subst hr
  exact ⟨"YES", rfl, by decide⟩

/-- C10: `updateExcelStatus` guards `if (!updatedRow || !updatedRow["Title"])`
before `xlsx.readFile`: for a null row, a missing Title field, or an empty
Title, it returns `noWrite` for EVERY possible load result and write
outcome — in particular before and independent of any read of the durable
store — and raises nothing. -/
theorem C10_title_guard (load : Except String Sheet) (writeOk : Bool) :
    updateExcelStatusEff none load writeOk = .noWrite ∧
    updateExcelStatusEff (some none) load writeOk = .noWrite ∧
    updateExcelStatusEff (some (some "")) load writeOk = .noWrite := by
  refine ⟨rfl, rfl, rfl⟩

/-- C5, counterexample: the claim says the Column Resolver matches the
target under case-insensitive trimmed comparison, but the metadata-update
variant uses exact `headers.indexOf('updated_description')`: on the header
list `["UPDATED_DESCRIPTION"]` the claimed comparison matches index 0, yet
the code appends a new column and returns index 1, changing the header
sequence. -/
theorem C5_column_resolver_cex :
    resolveUpdate ["UPDATED_DESCRIPTION"] =
      (1, ["UPDATED_DESCRIPTION", "updated_description"]) ∧
    (jsToLower (jsTrim "UPDATED_DESCRIPTION") == "updated_description") = true := by
  decide

/-- C5, amended: the publish-pipeline resolver matches the first header
under case-insensitive trimmed comparison while the metadata-update
resolver matches the first header under EXACT string equality; for both:
if no header matches, the canonical name is appended at the end and the
new last index returned, no existing column's index or content changes,
and resolving again after the append returns the same index. -/
theorem C5_column_resolver :
    (∀ (headers : List String) (i : Nat),
      findIndex (fun h => jsToLower (jsTrim h) == "uploaded") headers = some i →
      resolveUpload headers = (i, headers)) ∧
    (∀ headers : List String,
      findIndex (fun h => jsToLower (jsTrim h) == "uploaded") headers = none →
      resolveUpload headers = (headers.length, headers ++ ["Uploaded"])) ∧
    (∀ (headers : List String) (j : Nat) (x : String),
      headers[j]? = some x → ((resolveUpload headers).2)[j]? = some x) ∧
    (∀ headers : List String, resolveUpload (resolveUpload headers).2 = resolveUpload headers) ∧
    (∀ (headers : List String) (i : Nat),
      findIndex (fun h => h == "updated_description") headers = some i →
      resolveUpdate headers = (i, headers)) ∧
    (∀ headers : List String,
      findIndex (fun h => h == "updated_description") headers = none →
      resolveUpdate headers = (headers.length, headers ++ ["updated_description"])) ∧
    (∀ (headers : List String) (j : Nat) (x : String),
      headers[j]? = some x → ((resolveUpdate headers).2)[j]? = some x) ∧
    (∀ headers : List String, resolveUpdate (resolveUpdate headers).2 = resolveUpdate headers) := by
  refine ⟨?_, ?_, ?_, ?_, ?_, ?_, ?_, ?_⟩
  · exact fun headers i h => resolveCol_found _ _ headers i h
  · exact fun headers h => resolveCol_absent _ _ headers h
  · exact fun headers j x h => resolveCol_preserves _ _ headers j x h
  · exact fun headers => resolveCol_idem _ _ headers (by decide)
  · exact fun headers i h => resolveCol_found _ _ headers i h
  · exact fun headers h => resolveCol_absent _ _ headers h
  · exact fun headers j x h => resolveCol_preserves _ _ headers j x h
  · exact fun headers => resolveCol_idem _ _ headers (by decide)

/-- C5 witness: a whitespace-and-case-mangled `Uploaded` header is found
in place by the publish resolver; an absent `updated_description` header
is appended by the update resolver at the new last index. -/
theorem C5_column_resolver_witness :
    resolveUpload [" UPLOADED "] = (0, [" UPLOADED "]) ∧
    resolveUpdate ["x"] = (1, ["x", "updated_description"]) :=
  ⟨C5_column_resolver.1 [" UPLOADED "] 0 (by decide),
   C5_column_resolver.2.2.2.2.2.1 ["x"] (by decide)⟩

/-- C6: the positional Progress Recorder writes the marker at positional
offset `i + 1` of the freshly loaded sheet (offset 0 being the header
row), i.e. at the same data-row offset `i`; the row that gets the `'yes'`
marker is whatever row CURRENTLY sits at that offset (here `R`), so if the
dataset order changed between load and record, the row now at the offset
is marked rather than the intended one. -/
theorem C6_positional_recorder (headers : List String) (pre : List (List String))
    (R : List String) (post : List (List String)) :
    markVideoAsUpdated pre.length (headers :: (pre ++ R :: post)) =
      .wrote ((resolveUpdate headers).2 ::
        (pre ++ setCell R (resolveUpdate headers).1 "yes" :: post)) :=
  markVideoAsUpdated_at headers pre R post

/-- C8, counterexample: in the metadata-update pipeline a dataset-load
failure reaches `main`'s top-level `catch`, which only calls
`console.error` — there is no `process.exit(1)` — so the process
terminates with exit status 0, not the non-zero status the claim
requires for every pipeline. -/
theorem C8_exit_status_cex :
    (updateMain [["h"]] false (fun _ _ => false) true).1 = 0 := rfl

/-- C8, amended: in the publish pipeline a load failure exits with status 1
while every completed loop (including a quota-exhaustion early stop)
exits 0; in the metadata-update pipeline the top-level catch swallows
load failures, so the process exits 0 in every case. -/
theorem C8_top_level :
    (∀ (store : Sheet) (act : ORow → StageResult) (w : Bool),
      (uploadMain store false act w).1 = 1) ∧
    (∀ (store : Sheet) (act : ORow → StageResult) (w : Bool),
      (uploadMain store true act w).1 = 0) ∧
    (∀ (store : Sheet) (act : String → String → Bool) (w : Bool),
      (updateMain store false act w).1 = 0) ∧
    (∀ (store : Sheet) (act : String → String → Bool) (w : Bool),
      (updateMain store true act w).1 = 0) :=
  ⟨fun _ _ _ => rfl, fun _ _ _ => rfl, fun _ _ _ => rfl, fun _ _ _ => rfl⟩

/-- C9: with real credentials (`auth` non-null), a new description longer
than 4900 characters is silently truncated to its first 4900 characters
BEFORE being compared with the current description and before being
submitted: the call behaves exactly as if it had been given the truncated
description, and in particular a current description equal to the
truncation is reported "already up to date" even though the full new
description differs. -/
theorem C9_description_truncation (current : Option String) (d : String)
    (h : 4900 < d.length) :
    updateVideoDescription true current d =
      updateVideoDescription true current (jsSubstring d 4900) ∧
    updateVideoDescription true (some (jsSubstring d 4900)) d = .upToDate := by
  have hd : 4900 ≤ d.data.length := Nat.le_of_lt h
  have hlen : ¬(4900 < (jsSubstring d 4900).length) := by
    show ¬(4900 < (d.data.take 4900).length)
    rw [List.length_take]
    omega
  constructor
  · simp only [updateVideoDescription, Bool.not_true, Bool.false_eq_true, if_false,
      if_pos h, if_neg hlen]
  · simp only [updateVideoDescription, Bool.not_true, Bool.false_eq_true, if_false,
      if_pos h, beq_self_eq_true, if_true]

/-- C9 witness: a 4901-character description is longer than the limit, and
when the current description already equals its first 4900 characters the
update is skipped as "already up to date". -/
theorem C9_description_truncation_witness :
    4900 < (String.mk (List.replicate 4901 'a')).length ∧
    updateVideoDescription true
      (some (jsSubstring (String.mk (List.replicate 4901 'a')) 4900))
      (String.mk (List.replicate 4901 'a')) = .upToDate := by
  have h : 4900 < (String.mk (List.replicate 4901 'a')).length := by
    show 4900 < (List.replicate 4901 'a').length
    rw [List.length_replicate]
    omega
  exact ⟨h, (C9_description_truncation
    (some (jsSubstring (String.mk (List.replicate 4901 'a')) 4900))
    (String.mk (List.replicate 4901 'a')) h).2⟩

/-- C4: for a recorder call with a non-empty title on a sheet that has a
Title column, (i) when no data row's trimmed title cell equals the trimmed
target the recorder performs no write and returns normally (a console
warning is its only effect), and (ii) when rows match, only the FIRST
matching row receives the `"Yes"` marker — every other row, including
later rows with the same title, is untouched. -/
theorem C4_natural_key_noop :
    (∀ (t : String) (headers : List String) (rows : List (List String)) (tc : Nat),
      t ≠ "" →
      findIndex (fun h => jsToLower (jsTrim h) == "title") headers = some tc →
      (∀ r ∈ rows, cellTitle tc r ≠ jsTrim t) →
      updateExcelStatus (some (some t)) (headers :: rows) = .noWrite) ∧
    (∀ (t : String) (headers : List String) (tc : Nat) (pre post : List (List String))
       (R : List String),
      t ≠ "" →
      findIndex (fun h => jsToLower (jsTrim h) == "title") headers = some tc →
      (∀ r ∈ pre, cellTitle tc r ≠ jsTrim t) →
      cellTitle tc R = jsTrim t →
      updateExcelStatus (some (some t)) (headers :: (pre ++ R :: post)) =
        .wrote ((resolveUpload headers).2 ::
          (pre ++ setCell R (resolveUpload headers).1 "Yes" :: post))) :=
  ⟨fun t headers rows tc ht hf hn => updateExcelStatus_noMatch t ht headers rows tc hf hn,
   fun t headers tc pre post R ht hf hp hR =>
     updateExcelStatus_match t ht headers tc pre post R hf hp hR⟩

/-- C4 witness: an absent title is a silent no-op; with two rows titled
`"t"`, recording `" t "` marks only the first and leaves the later
duplicate untouched. -/
theorem C4_natural_key_noop_witness :
    updateExcelStatus (some (some "zz")) [["Title"], ["t"]] = .noWrite ∧
    updateExcelStatus (some (some " t ")) [["Title"], ["x"], ["t"], ["t", "old"]] =
      .wrote [["Title", "Uploaded"], ["x"], ["t", "Yes"], ["t", "old"]] :=
  ⟨C4_natural_key_noop.1 "zz" ["Title"] [["t"]] 0 (by decide) (by decide) (by decide),
   (C4_natural_key_noop.2 " t " ["Title"] 0 [["x"]] [["t", "old"]] ["t"]
     (by decide) (by decide) (by decide) (by decide)).trans (by decide)⟩

/-- C3: if the upload action for row `v` fails with a message containing
the quota substring, the publish loop `break`s immediately: the final
durable store is exactly the store accumulated over the earlier rows
(`pre`), so `v` is not marked, no row after `v` is acted on or marked, and
every marker persisted for earlier rows remains. -/
theorem C3_quota_stop (act : ORow → StageResult) (writeOk : Bool) (pre post : List ORow)
    (v : ORow) (msg : String) (store : Sheet)
    (hpre : ∀ r ∈ pre, isQuotaBreak act r = false)
    (hurl : truthy v.blobUrl = true) (htitle : truthy v.title = true)
    (hact : act v = .uploadFail msg) (hmsg : strIncludes msg quotaMsg = true) :
    uploadLoop act writeOk (pre ++ v :: post) store =
      List.foldl (stepRowU act writeOk) store pre := by
  rw [uploadLoop_append act writeOk pre (v :: post) store hpre]
  simp [uploadLoop, hurl, htitle, hact, hmsg]

/-- C3 witness: three rows, upload succeeds on row 1 and hits the quota on
row 2 — the batch halts after row 2, row 1's `"Yes"` marker persists in
the durable store, rows 2 and 3 stay unmarked. -/
theorem C3_quota_stop_witness :
    uploadLoop
      (fun v => if v.title == some "A" then .success
        else .uploadFail "exceeded the number of videos")
      true
      [⟨none, some "u", some "A"⟩, ⟨none, some "u", some "B"⟩, ⟨none, some "u", some "C"⟩]
      [["Title"], ["A"], ["B"], ["C"]] =
      [["Title", "Uploaded"], ["A", "Yes"], ["B"], ["C"]] :=
  (C3_quota_stop
    (fun v => if v.title == some "A" then .success
      else .uploadFail "exceeded the number of videos")
    true [⟨none, some "u", some "A"⟩] [⟨none, some "u", some "C"⟩]
    ⟨none, some "u", some "B"⟩ "exceeded the number of videos"
    [["Title"], ["A"], ["B"], ["C"]]
    (by decide) (by decide) (by decide) (by decide) (by decide)).trans (by decide)

/-- C7: every failure inside either Progress Recorder is caught by its own
`catch`: whenever the recorder body throws, the recorder still returns
(with no write); and the batch loops proceed to the next row after a
successful action REGARDLESS of the write outcome `writeOk` of the
marker write — a failed durable write does not stop the batch. -/
theorem C7_recorder_nonfatal :
    (∀ (row? : Option (Option String)) (load : Except String Sheet)
       (writeOk : Bool) (e : String),
      recUploadBody row? load writeOk = .error e →
      updateExcelStatusEff row? load writeOk = .noWrite) ∧
    (∀ (i : Nat) (fileOk : Bool) (load : Except String Sheet) (writeOk : Bool) (e : String),
      recUpdateBody i fileOk load writeOk = .error e →
      markVideoAsUpdatedEff i fileOk load writeOk = .noWrite) ∧
    (∀ (act : ORow → StageResult) (writeOk : Bool) (v : ORow) (rest : List ORow)
       (store : Sheet),
      truthy v.blobUrl = true → truthy v.title = true → act v = .success →
      uploadLoop act writeOk (v :: rest) store =
        uploadLoop act writeOk rest (stepStore writeOk v.title store)) ∧
    (∀ (act : String → String → Bool) (writeOk : Bool) (r : URow) (rest : List URow)
       (i : Nat) (store : Sheet) (vid : String),
      truthyYes r.updatedDescription = false → truthy r.youtubeUrl = true →
      extractVideoId r.youtubeUrl = some vid → truthy r.description = true →
      act vid (r.description.getD "") = true →
      updateLoop act writeOk (r :: rest) i store =
        updateLoop act writeOk rest (i + 1)
          (applyWrite store (markVideoAsUpdatedEff i true (.ok store) writeOk))) := by
  refine ⟨?_, ?_, ?_, ?_⟩
  · intro row? load writeOk e h
    simp [updateExcelStatusEff, h]
  · intro i fileOk load writeOk e h
    simp [markVideoAsUpdatedEff, h]
  · intro act writeOk v rest store h1 h2 h3
    simp [uploadLoop, h1, h2, h3]
  · intro act writeOk r rest i store vid h1 h2 h3 h4 h5
    simp [updateLoop, h1, h2, h3, h4, h5]

/-- C7 witness: a failing sheet load in each recorder yields a caught
no-write return; and with a broken durable write (`writeOk = false`) both
loops still advance past a successfully acted-on row, leaving the store
unchanged. -/
theorem C7_recorder_nonfatal_witness :
    updateExcelStatusEff (some (some "t")) (.error "ENOENT") true = .noWrite ∧
    markVideoAsUpdatedEff 2 true (.error "boom") false = .noWrite ∧
    uploadLoop (fun _ => .success) false [⟨none, some "u", some "T"⟩]
      [["Title"], ["T"]] = [["Title"], ["T"]] ∧
    updateLoop (fun _ _ => true) false
      [⟨none, some "https://youtu.be/ABCDEFGHIJK", some "d"⟩] 0
      [["h"], ["row0"]] = [["h"], ["row0"]] :=
  ⟨C7_recorder_nonfatal.1 (some (some "t")) (.error "ENOENT") true "ENOENT" rfl,
   C7_recorder_nonfatal.2.1 2 true (.error "boom") false "boom" rfl,
   (C7_recorder_nonfatal.2.2.1 (fun _ => .success) false ⟨none, some "u", some "T"⟩ []
     [["Title"], ["T"]] (by decide) (by decide) rfl).trans (by decide),
   (C7_recorder_nonfatal.2.2.2 (fun _ _ => true) false
     ⟨none, some "https://youtu.be/ABCDEFGHIJK", some "d"⟩ [] 0 [["h"], ["row0"]]
     "ABCDEFGHIJK" (by decide) (by decide) (by decide) (by decide) rfl).trans (by decide)⟩

/-- C2, counterexample: the recorder resolves the marker column
case-insensitively, but the filter reads the object key `row.Uploaded`
exactly.  On a sheet whose marker header is `"UPLOADED"`, a successful
recorder call for the only row writes `"Yes"` into that column, yet the
Row Filter applied to the rewritten durable dataset STILL CONTAINS the
row, because its object view has no `Uploaded` key. -/
theorem C2_monotonic_progress_cex :
    updateExcelStatus (some (some "t")) [["Title", "UPLOADED"], ["t", ""]] =
      .wrote [["Title", "UPLOADED"], ["t", "Yes"]] ∧
    filterUploaded (objRowsUpload [["Title", "UPLOADED"], ["t", "Yes"]]) =
      [⟨none, none, some "t"⟩] := by
  decide

/-- C2, amended: provided the marker column the recorder resolves is the
same column the filter's object view reads — for the publish variant the
first header that is exactly `"Uploaded"` sits at the resolved index, for
the update variant the last header that is exactly `'updated_description'`
sits at the resolved index — and (publish variant) `R` is the first row
matching the recorded title, then after a successful Progress Recorder
call the Row Filter on the rewritten durable dataset equals the filter on
the dataset with `R` removed: the canonical done value (`"Yes"` resp.
`"yes"`) normalizes to `"yes"` under the filter's comparison and `R` is
excluded. -/
theorem C2_monotonic_progress :
    (∀ (t : String) (headers headers' : List String) (tc c : Nat)
       (pre post : List (List String)) (R : List String),
      t ≠ "" →
      findIndex (fun h => jsToLower (jsTrim h) == "title") headers = some tc →
      resolveUpload headers = (c, headers') →
      findIndex (fun h => h == "Uploaded") headers' = some c →
      (∀ r ∈ pre, cellTitle tc r ≠ jsTrim t) →
      cellTitle tc R = jsTrim t →
      updateExcelStatus (some (some t)) (headers :: (pre ++ R :: post)) =
        .wrote (headers' :: (pre ++ setCell R c "Yes" :: post)) ∧
      filterUploaded (objRowsUpload (headers' :: (pre ++ setCell R c "Yes" :: post))) =
        filterUploaded (objRowsUpload (headers' :: (pre ++ post)))) ∧
    (∀ (headers headers' : List String) (c : Nat)
       (pre post : List (List String)) (R : List String),
      resolveUpdate headers = (c, headers') →
      lastIdxOf "updated_description" headers' = some c →
      markVideoAsUpdated pre.length (headers :: (pre ++ R :: post)) =
        .wrote (headers' :: (pre ++ setCell R c "yes" :: post)) ∧
      filterUpdated (objRowsUpdate (headers' :: (pre ++ setCell R c "yes" :: post))) =
        filterUpdated (objRowsUpdate (headers' :: (pre ++ post)))) := by
  constructor
  · intro t headers headers' tc c pre post R ht hfind hres hkey hpre hR
    constructor
    · have hm := updateExcelStatus_match t ht headers tc pre post R hfind hpre hR
      simpa [hres] using hm
    · have hmark : objGetFirst headers' (setCell R c "Yes") "Uploaded" = some "Yes" := by
        simp [objGetFirst, hkey, setCell_getD, setCell_getElem?]
      simp only [objRowsUpload, filterUploaded, List.map_append, List.map_cons,
        List.filter_append, List.filter_cons, hmark]
      have hyes : truthyYes (some "Yes") = true := by decide
      simp [hyes]
  · intro headers headers' c pre post R hres hkey
    constructor
    · have hm := markVideoAsUpdated_at headers pre R post
      simpa [hres] using hm
    · have hmark : objGetLast headers' (setCell R c "yes") "updated_description" =
          some "yes" := by
        simp [objGetLast, hkey, setCell_getElem?]
      simp only [objRowsUpdate, filterUpdated, List.map_append, List.map_cons,
        List.filter_append, List.filter_cons, hmark]
      have hyes : truthyYes (some "yes") = true := by decide
      simp [hyes]

/-- C2 witness: on canonical headers both recorders mark their row and the
respective Row Filter of the rewritten dataset drops it (equals the filter
of the dataset without the row). -/
theorem C2_monotonic_progress_witness :
    (updateExcelStatus (some (some "t")) [["Title"], ["t"]] =
        .wrote [["Title", "Uploaded"], ["t", "Yes"]] ∧
      filterUploaded (objRowsUpload [["Title", "Uploaded"], ["t", "Yes"]]) =
        filterUploaded (objRowsUpload [["Title", "Uploaded"]])) ∧
    (markVideoAsUpdated 0 [["A"], ["r"]] =
        .wrote [["A", "updated_description"], ["r", "yes"]] ∧
      filterUpdated (objRowsUpdate [["A", "updated_description"], ["r", "yes"]]) =
        filterUpdated (objRowsUpdate [["A", "updated_description"]])) := by
  constructor
  · have h := C2_monotonic_progress.1 "t" ["Title"] ["Title", "Uploaded"] 0 1 [] [] ["t"]
      (by decide) (by decide) (by decide) (by decide) (by simp) (by decide)
    exact ⟨h.1.trans (by decide), h.2.trans (by decide)⟩
  · have h := C2_monotonic_progress.2 ["A"] ["A", "updated_description"] 1 [] [] ["r"]
      (by decide) (by decide)
    exact ⟨h.1.trans (by decide), h.2.trans (by decide)⟩
